import Mathlib

/-!
Shallow embedding of the JWT session-authentication core of the contact-book
API (`services/auth.py`, `repository/users.py`, `routes/auth.py`).

Modelling conventions:
* A JWT string is modelled by `Token`: either the deterministic signed
  encoding of a claim set under a secret (`Token.signed payload key`, matching
  `jwt.encode(to_encode, SECRET_KEY, algorithm)` which is a deterministic
  injective function of the payload for a fixed HMAC key), or an opaque
  string that is not a well-formed signature under any key (`Token.garbage`).
  A token obtained by altering characters of a signed token fails signature
  or structure verification (the standard unforgeability assumption for the
  HMAC-signed wire format), so it is represented by `Token.garbage` or by a
  `Token.signed` value under a key different from the process secret.
* `jwt_decode` embeds `jose.jwt.decode`: signature/structure verification
  first (raising the generic `JWTError`), then the `exp` claim check
  (raising `ExpiredSignatureError`, a subclass of `JWTError`, when
  `exp < now`).  Timestamps are integer seconds (`Nat`), as produced by
  jose from `datetime.utcnow()`.
* Python side effects on the SQLAlchemy session become explicit state passing
  over `DB := List User`; an uncaught Python exception (e.g. an
  `AttributeError` from dereferencing `None`) is the `crash` outcome.
* bcrypt hashing/verification (`pwd_context`) is an abstract parameter
  `pverify` of `login`.
-/

/-- Purpose tag stored in the `scope` claim: `access_token` or
`refresh_token`.  Email-verification tokens carry no `scope` claim at all, so
the payload field is an `Option Scope`. -/
inductive Scope
  | access_token
  | refresh_token
deriving DecidableEq, Repr

/-- Claim set of a token as built by the issuer functions: `sub` (absent
means no `"sub"` key in the payload), `iat`, `exp` (integer seconds), and the
optional `scope` tag. -/
structure Payload where
  sub : Option String
  iat : Nat
  exp : Nat
  scope : Option Scope
deriving DecidableEq, Repr

/-- A JWT wire string: either the deterministic signed encoding of `payload`
under `key`, or a string that is not a valid signed token under any key. -/
inductive Token
  | signed (payload : Payload) (key : Nat)
  | garbage (id : Nat)
deriving DecidableEq, Repr

/-- Errors raised by `jose.jwt.decode`: the generic `JWTError` for signature
or structure failure, and `ExpiredSignatureError` (a subclass of `JWTError`,
so `except JWTError` catches both) for a passed `exp` claim. -/
inductive JoseError
  | jwtError
  | expiredSignature
deriving DecidableEq, Repr

/-- Embedding of `jose.jwt.decode(token, key, algorithms)`: signature and
structural verification happen first (generic `jwtError`), then the `exp`
claim is checked (`expiredSignature` when `exp < now`, with zero leeway). -/
def jwt_decode (t : Token) (key : Nat) (now : Nat) : Except JoseError Payload :=
  match t with
  | .garbage _ => .error .jwtError
  | .signed p k =>
    if k ≠ key then .error .jwtError
    else if p.exp < now then .error .expiredSignature
    else .ok p

/-- An HTTP error response as raised by `fastapi.HTTPException`. -/
structure HTTPException where
  status_code : Nat
  detail : String
deriving DecidableEq, Repr

/-- Result of a service-layer operation: a value, a raised `HTTPException`,
or an uncaught Python exception (`crash`). -/
inductive Outcome (α : Type)
  | ok (a : α)
  | httpError (e : HTTPException)
  | crash (msg : String)
deriving DecidableEq, Repr

/-- The user record (`database/models.py:User`), restricted to the fields the
authentication core reads or writes.  The stored `refresh_token` column holds
the serialized token string, modelled as `Option Token`. -/
structure User where
  username : String
  email : String
  password : String
  confirmed : Bool
  refresh_token : Option Token
deriving DecidableEq, Repr

/-- The user store: the `users` table as a list of records. -/
def DB : Type := List User

instance : DecidableEq DB := inferInstanceAs (DecidableEq (List User))

instance : Repr DB := inferInstanceAs (Repr (List User))

/-- Embedding of `repository/users.py:get_user_by_email`:
`db.query(User).filter(User.email == email).first()` — the first user with
the given email, or `none`. -/
def get_user_by_email (email : String) (db : DB) : Option User :=
  List.find? (fun u => u.email == email) db

/-- Embedding of `repository/users.py:update_token` followed by the commit:
the found user object has its `refresh_token` attribute set, so the first
record with that email is updated. -/
def set_refresh_token : DB → String → Option Token → DB
  | [], _, _ => []
  | u :: rest, email, tok =>
    if u.email == email then { u with refresh_token := tok } :: rest
    else u :: set_refresh_token rest email tok

/-- Embedding of `repository/users.py:confirm_email`: look up the user by
email and set its `confirmed` attribute to `True` (first record with that
email). -/
def set_confirmed : DB → String → DB
  | [], _ => []
  | u :: rest, email =>
    if u.email == email then { u with confirmed := true } :: rest
    else u :: set_confirmed rest email

/-- Embedding of `Auth.create_access_token`: payload
`{sub, iat: now, exp, scope: "access_token"}` signed with the process secret.
`if expires_delta:` in Python is false for both `None` and `0`, in which case
the default lifetime of 15 minutes (900 s) applies. -/
def create_access_token (secret : Nat) (sub : String) (now : Nat)
    (expires_delta : Option Nat) : Token :=
  let exp := match expires_delta with
    | some d => if d = 0 then now + 900 else now + d
    | none => now + 900
  .signed ⟨some sub, now, exp, some .access_token⟩ secret

/-- Embedding of `Auth.create_refresh_token`: like the access token but with
`scope: "refresh_token"` and a default lifetime of 7 days (604800 s). -/
def create_refresh_token (secret : Nat) (sub : String) (now : Nat)
    (expires_delta : Option Nat) : Token :=
  let exp := match expires_delta with
    | some d => if d = 0 then now + 604800 else now + d
    | none => now + 604800
  .signed ⟨some sub, now, exp, some .refresh_token⟩ secret

/-- Embedding of `Auth.create_email_token`: payload `{sub, iat: now, exp}`
with a 7-day lifetime and no `scope` claim. -/
def create_email_token (secret : Nat) (sub : String) (now : Nat) : Token :=
  .signed ⟨some sub, now, now + 604800, none⟩ secret

/-- Embedding of `Auth.decode_refresh_token`: decode with the process secret
(`except JWTError` maps both signature failure and expiry to the single
401 "Could not validate credentials"); on success check
`payload["scope"] == "refresh_token"` (a missing `scope` key is an uncaught
`KeyError`), return `payload["sub"]`, else 401 "Invalid scope for token". -/
def decode_refresh_token (secret : Nat) (t : Token) (now : Nat) : Outcome String :=
  match jwt_decode t secret now with
  | .error _ => .httpError ⟨401, "Could not validate credentials"⟩
  | .ok p =>
    match p.scope with
    | none => .crash "KeyError: scope"
    | some s =>
      if s = .refresh_token then
        match p.sub with
        | none => .crash "KeyError: sub"
        | some email => .ok email
      else .httpError ⟨401, "Invalid scope for token"⟩

/-- The shared 401 exception of `Auth.get_current_user`. -/
def credentials_exception : HTTPException :=
  ⟨401, "Could not validate credentials"⟩

/-- Embedding of `Auth.get_current_user`: decode with the process secret
(`except JWTError` collapses signature failure and expiry into
`credentials_exception`); require `payload["scope"] == "access_token"`
(anything else raises the same `credentials_exception`); read
`payload["sub"]` (missing key is an uncaught `KeyError`); look the user up
and raise `credentials_exception` if absent. -/
def get_current_user (secret : Nat) (t : Token) (now : Nat) (db : DB) :
    Outcome User :=
  match jwt_decode t secret now with
  | .error _ => .httpError credentials_exception
  | .ok p =>
    match p.scope with
    | none => .crash "KeyError: scope"
    | some s =>
      if s = .access_token then
        match p.sub with
        | none => .crash "KeyError: sub"
        | some email =>
          match get_user_by_email email db with
          | none => .httpError credentials_exception
          | some u => .ok u
      else .httpError credentials_exception

/-- Embedding of `Auth.get_email_from_token`: decode with the process secret
(`except JWTError` gives 422 "Invalid token for email verification"), then
return `payload["sub"]` with no scope check at all (a missing `sub` key is an
uncaught `KeyError`). -/
def get_email_from_token (secret : Nat) (t : Token) (now : Nat) : Outcome String :=
  match jwt_decode t secret now with
  | .error _ =>
    .httpError ⟨422, "Invalid token for email verification"⟩
  | .ok p =>
    match p.sub with
    | none => .crash "KeyError: sub"
    | some email => .ok email

/-- The access/refresh pair returned by `login` and `refresh_token`. -/
structure TokenPair where
  access_token : Token
  refresh_token : Token
deriving DecidableEq, Repr

/-- Result of a route handler: the response value together with the post-state
of the store, a raised `HTTPException` together with the post-state (commits
that happened before the raise are kept), or an uncaught Python exception. -/
inductive RouteResult (α : Type)
  | ok (a : α) (db : DB)
  | httpError (e : HTTPException) (db : DB)
  | crash (msg : String)
deriving DecidableEq, Repr

/-- Embedding of `routes/auth.py:login`.  `pverify` abstracts
`pwd_context.verify` (bcrypt).  Lookup failure is 401 "Invalid email"; an
unconfirmed account is 401 "Email not confirmed"; a password-hash mismatch is
401 "Invalid password"; on success a fresh access+refresh pair is issued and
the refresh token persisted. -/
def login (pverify : String → String → Bool) (secret : Nat)
    (username password : String) (now : Nat) (db : DB) :
    RouteResult TokenPair :=
  match get_user_by_email username db with
  | none => .httpError ⟨401, "Invalid email"⟩ db
  | some user =>
    if !user.confirmed then .httpError ⟨401, "Email not confirmed"⟩ db
    else if !(pverify password user.password) then
      .httpError ⟨401, "Invalid password"⟩ db
    else
      let access := create_access_token secret user.email now none
      let refresh := create_refresh_token secret user.email now none
      .ok ⟨access, refresh⟩ (set_refresh_token db user.email (some refresh))

/-- Embedding of `routes/auth.py:refresh_token`: decode the presented token
as a refresh token; look the user up by the extracted email with no `None`
check, so an absent user makes the subsequent `user.refresh_token` attribute
access an uncaught `AttributeError`; on a stored-token mismatch persist
`None` and raise 401 "Invalid refresh token"; on a match issue a fresh pair
and persist the new refresh token. -/
def refresh_route (secret : Nat) (t : Token) (now : Nat) (db : DB) :
    RouteResult TokenPair :=
  match decode_refresh_token secret t now with
  | .httpError e => .httpError e db
  | .crash m => .crash m
  | .ok email =>
    match get_user_by_email email db with
    | none => .crash "AttributeError: NoneType has no attribute refresh_token"
    | some user =>
      if user.refresh_token ≠ some t then
        .httpError ⟨401, "Invalid refresh token"⟩
          (set_refresh_token db user.email none)
      else
        let access := create_access_token secret email now none
        let refresh := create_refresh_token secret email now none
        .ok ⟨access, refresh⟩ (set_refresh_token db user.email (some refresh))

/-- Embedding of `routes/auth.py:confirm_email`: extract the email from the
token; 400 "Verification error" if no such user; the distinct
"Your email is already confirmed" message (no state change) if already
confirmed; otherwise set the confirmed flag and report "Email confirmed". -/
def confirm_email_route (secret : Nat) (t : Token) (now : Nat) (db : DB) :
    RouteResult String :=
  match get_email_from_token secret t now with
  | .httpError e => .httpError e db
  | .crash m => .crash m
  | .ok email =>
    match get_user_by_email email db with
    | none => .httpError ⟨400, "Verification error"⟩ db
    | some user =>
      if user.confirmed then .ok "Your email is already confirmed" db
      else .ok "Email confirmed" (set_confirmed db email)

/-- A token string that fails signature or structural verification against
the process secret: either not a well-formed signed token at all, or signed
under a different key (which covers tokens signed with another secret and,
under the unforgeability assumption, tokens obtained by altering characters
of a valid one). -/
def tampered (t : Token) (secret : Nat) : Bool :=
  match t with
  | .garbage _ => true
  | .signed _ k => k ≠ secret

/-- A successful lookup returns a user whose email field equals the searched
email. -/
theorem get_user_by_email_eq {email : String} {db : DB} {u : User}
    (h : get_user_by_email email db = some u) : u.email = email := by
  unfold get_user_by_email at h
  have hp := List.find?_some h
  simpa using hp

/-- Looking up the same email after `set_refresh_token` returns the found
user with its `refresh_token` field replaced. -/
theorem get_user_set_refresh_token (db : DB) (email : String)
    (tok : Option Token) :
    get_user_by_email email (set_refresh_token db email tok)
      = (get_user_by_email email db).map
          (fun u => { u with refresh_token := tok }) := by
  induction db with
  | nil => rfl
  | cons u rest ih =>
    by_cases h : u.email == email
    · simp [set_refresh_token, get_user_by_email, List.find?, h]
    · simp only [set_refresh_token, h, if_neg, Bool.false_eq_true,
        not_false_eq_true, if_false]
      simpa [get_user_by_email, List.find?, h] using ih

/-- Looking up the same email after `set_confirmed` returns the found user
with its `confirmed` field set. -/
theorem get_user_set_confirmed (db : DB) (email : String) :
    get_user_by_email email (set_confirmed db email)
      = (get_user_by_email email db).map
          (fun u => { u with confirmed := true }) := by
  induction db with
  | nil => rfl
  | cons u rest ih =>
    by_cases h : u.email == email
    · simp [set_confirmed, get_user_by_email, List.find?, h]
    · simp only [set_confirmed, h, if_neg, Bool.false_eq_true,
        not_false_eq_true, if_false]
      simpa [get_user_by_email, List.find?, h] using ih

/-- C3: a token signed with a different secret, or not a well-formed signed
token at all (which covers a valid token with any single altered character,
under the unforgeability assumption), fails at the codec with the generic
`JWTError` — never `ExpiredSignatureError` — because signature/structure
verification precedes the expiry check; both verification operations then
report 401 "Could not validate credentials" (the `Invalid` kind), never the
wrong-purpose error, because the purpose check only runs after a successful
decode. -/
theorem C3_invalid_wins (secret : Nat) (t : Token) (now : Nat) (db : DB)
    (h : tampered t secret = true) :
    jwt_decode t secret now = .error .jwtError
    ∧ decode_refresh_token secret t now
        = .httpError ⟨401, "Could not validate credentials"⟩
    ∧ get_current_user secret t now db = .httpError credentials_exception := by
  have hdec : jwt_decode t secret now = .error .jwtError := by
    cases t with
    | garbage i => rfl
    | signed p k =>
      unfold tampered at h
      simp only [decide_eq_true_eq] at h
      simp [jwt_decode, h]
  refine ⟨hdec, ?_, ?_⟩
  · unfold decode_refresh_token
    rw [hdec]
  · unfold get_current_user
    rw [hdec]

/-- C3 witness: a garbage token and a token signed under key 1 against
secret 0, both expired and refresh-scoped, still report the `Invalid`
outcomes. -/
theorem C3_invalid_wins_witness :
    tampered (Token.garbage 0) 0 = true
    ∧ jwt_decode (Token.garbage 0) 0 20 = .error .jwtError
    ∧ decode_refresh_token 0 (Token.garbage 0) 20
        = .httpError ⟨401, "Could not validate credentials"⟩
    ∧ get_current_user 0 (Token.garbage 0) 20 [] = .httpError credentials_exception
    ∧ tampered (Token.signed ⟨some "a@b.c", 0, 10, some .refresh_token⟩ 1) 0 = true
    ∧ decode_refresh_token 0 (Token.signed ⟨some "a@b.c", 0, 10, some .refresh_token⟩ 1) 20
        = .httpError ⟨401, "Could not validate credentials"⟩ :=
  ⟨by decide,
   (C3_invalid_wins 0 (Token.garbage 0) 20 [] (by decide)).1,
   (C3_invalid_wins 0 (Token.garbage 0) 20 [] (by decide)).2.1,
   (C3_invalid_wins 0 (Token.garbage 0) 20 [] (by decide)).2.2,
   by decide,
   (C3_invalid_wins 0 (Token.signed ⟨some "a@b.c", 0, 10, some .refresh_token⟩ 1) 20 []
      (by decide)).2.1⟩

/-- C2 counterexample: a correctly signed, well-formed refresh token whose
expiry has passed fails `decode_refresh_token` with exactly the same
`HTTPException` (401 "Could not validate credentials") as a structurally
invalid token, and likewise an expired access token fails `get_current_user`
with exactly the same exception as an invalid token — so at the two
verification operations the expired outcome is NOT a kind distinct from the
invalid one. -/
theorem C2_expired_not_distinct_counterexample :
    decode_refresh_token 0 (Token.signed ⟨some "a@b.c", 0, 10, some .refresh_token⟩ 0) 20
      = .httpError ⟨401, "Could not validate credentials"⟩
    ∧ decode_refresh_token 0 (Token.garbage 0) 20
      = .httpError ⟨401, "Could not validate credentials"⟩
    ∧ get_current_user 0 (Token.signed ⟨some "a@b.c", 0, 10, some .access_token⟩ 0) 20 []
      = .httpError credentials_exception
    ∧ get_current_user 0 (Token.garbage 0) 20 []
      = .httpError credentials_exception := by
  refine ⟨?_, ?_, ?_, ?_⟩ <;> decide

/-- C2 amended: a correctly signed, well-formed token whose `exp` has passed
does fail verification, and the codec (`jose.jwt.decode`) raises the distinct
`ExpiredSignatureError` kind; but both verification operations catch it as a
plain `JWTError` and report the same generic 401
"Could not validate credentials" used for signature/structure failure, so
the Expired/Invalid distinction is not observable at either operation. -/
theorem C2_expired_amended (secret : Nat) (p : Payload) (now : Nat) (db : DB)
    (hexp : p.exp < now) :
    jwt_decode (Token.signed p secret) secret now = .error .expiredSignature
    ∧ decode_refresh_token secret (Token.signed p secret) now
        = .httpError ⟨401, "Could not validate credentials"⟩
    ∧ get_current_user secret (Token.signed p secret) now db
        = .httpError credentials_exception := by
  have hdec : jwt_decode (Token.signed p secret) secret now
      = .error .expiredSignature := by
    simp [jwt_decode, hexp]
  refine ⟨hdec, ?_, ?_⟩
  · unfold decode_refresh_token
    rw [hdec]
  · unfold get_current_user
    rw [hdec]

/-- C2 witness: the amended statement instantiated at an expired
refresh-scoped payload. -/
theorem C2_expired_amended_witness :
    (10 : Nat) < 20
    ∧ decode_refresh_token 0 (Token.signed ⟨some "a@b.c", 0, 10, some .refresh_token⟩ 0) 20
        = .httpError ⟨401, "Could not validate credentials"⟩ :=
  ⟨by decide,
   (C2_expired_amended 0 ⟨some "a@b.c", 0, 10, some .refresh_token⟩ 20 [] (by decide)).2.1⟩

/-- C4 counterexample: a correctly signed, unexpired refresh-purpose token
presented to the access-verification operation (`get_current_user`) fails
with `credentials_exception` — 401 "Could not validate credentials" — which
is exactly the error reported for an invalid (garbage) token, not a distinct
`WrongPurpose` kind. -/
theorem C4_wrong_purpose_counterexample :
    get_current_user 0 (create_refresh_token 0 "a@b.c" 0 none) 5 []
      = .httpError credentials_exception
    ∧ get_current_user 0 (Token.garbage 0) 5 []
      = .httpError credentials_exception := by
  refine ⟨?_, ?_⟩ <;> decide

/-- C4 amended: both purpose mismatches fail verification for every subject,
but only the refresh-verification direction reports a distinct wrong-purpose
error: a fresh unexpired access token presented to `decode_refresh_token`
fails 401 "Invalid scope for token", while a fresh unexpired refresh token
presented to `get_current_user` fails with the same generic
`credentials_exception` used for invalid tokens. -/
theorem C4_wrong_purpose_amended (secret : Nat) (s : String) (iat now : Nat)
    (db : DB) (hacc : now ≤ iat + 900) (href : now ≤ iat + 604800) :
    decode_refresh_token secret (create_access_token secret s iat none) now
      = .httpError ⟨401, "Invalid scope for token"⟩
    ∧ get_current_user secret (create_refresh_token secret s iat none) now db
      = .httpError credentials_exception := by
  constructor
  · unfold decode_refresh_token create_access_token jwt_decode
    simp [Nat.not_lt.mpr hacc]
  · unfold get_current_user create_refresh_token jwt_decode
    simp [Nat.not_lt.mpr href]

/-- C4 witness: the amended statement instantiated at subject "a@b.c",
issuance time 0, verification time 5. -/
theorem C4_wrong_purpose_amended_witness :
    (5 : Nat) ≤ 0 + 900
    ∧ decode_refresh_token 0 (create_access_token 0 "a@b.c" 0 none) 5
        = .httpError ⟨401, "Invalid scope for token"⟩ :=
  ⟨by decide,
   (C4_wrong_purpose_amended 0 "a@b.c" 0 5 [] (by decide) (by decide)).1⟩

/-- C5: for a subject present in the user store, a freshly issued
default-lifetime access token verified before the 15-minute lifetime has
elapsed resolves to that user, whose email equals the subject. -/
theorem C5_access_roundtrip (secret : Nat) (s : String) (iat now : Nat)
    (db : DB) (u : User)
    (hfound : get_user_by_email s db = some u)
    (hfresh : now ≤ iat + 900) :
    get_current_user secret (create_access_token secret s iat none) now db
      = .ok u
    ∧ u.email = s := by
  constructor
  · unfold get_current_user create_access_token jwt_decode
    simp [Nat.not_lt.mpr hfresh, hfound]
  · exact get_user_by_email_eq hfound

/-- C5 witness: the round trip at subject "a@b.c" in a one-user store,
issuance time 0, verification time 5. -/
theorem C5_access_roundtrip_witness :
    get_current_user 0 (create_access_token 0 "a@b.c" 0 none) 5
        [⟨"alice", "a@b.c", "hashed", true, none⟩]
      = .ok ⟨"alice", "a@b.c", "hashed", true, none⟩ :=
  (C5_access_roundtrip 0 "a@b.c" 0 5 [⟨"alice", "a@b.c", "hashed", true, none⟩]
    ⟨"alice", "a@b.c", "hashed", true, none⟩ (by decide) (by decide)).1

/-- C9: `get_email_from_token` performs no purpose check — every correctly
signed, unexpired token carrying a `sub` claim succeeds and returns it,
whatever its `scope` claim (in particular fresh access and refresh tokens
are accepted as email-verification tokens); and an `HTTPException` arises
only when the JWT decode itself fails, always as
422 "Invalid token for email verification". -/
theorem C9_email_no_purpose_check (secret now : Nat) :
    (∀ p s, p.sub = some s → ¬ p.exp < now →
        get_email_from_token secret (Token.signed p secret) now = .ok s)
    ∧ (∀ s iat, now ≤ iat + 900 →
        get_email_from_token secret (create_access_token secret s iat none) now
          = .ok s)
    ∧ (∀ s iat, now ≤ iat + 604800 →
        get_email_from_token secret (create_refresh_token secret s iat none) now
          = .ok s)
    ∧ (∀ t e, get_email_from_token secret t now = .httpError e →
        e = ⟨422, "Invalid token for email verification"⟩
        ∧ ∃ err, jwt_decode t secret now = .error err) := by
  refine ⟨?_, ?_, ?_, ?_⟩
  · intro p s hsub hexp
    unfold get_email_from_token jwt_decode
    simp [hexp, hsub]
  · intro s iat h
    unfold get_email_from_token create_access_token jwt_decode
    simp [Nat.not_lt.mpr h]
  · intro s iat h
    unfold get_email_from_token create_refresh_token jwt_decode
    simp [Nat.not_lt.mpr h]
  · intro t e h
    cases hd : jwt_decode t secret now with
    | error err =>
      simp only [get_email_from_token, hd, Outcome.httpError.injEq] at h
      exact ⟨h.symm, err, rfl⟩
    | ok p =>
      cases hs : p.sub with
      | none => simp [get_email_from_token, hd, hs] at h
      | some s => simp [get_email_from_token, hd, hs] at h

/-- C9 witness: a fresh access token and a fresh refresh token for "a@b.c"
are both accepted by `get_email_from_token`. -/
theorem C9_email_no_purpose_check_witness :
    get_email_from_token 0 (create_access_token 0 "a@b.c" 0 none) 5 = .ok "a@b.c"
    ∧ get_email_from_token 0 (create_refresh_token 0 "a@b.c" 0 none) 5
      = .ok "a@b.c" :=
  ⟨(C9_email_no_purpose_check 0 5).2.1 "a@b.c" 0 (by decide),
   (C9_email_no_purpose_check 0 5).2.2.1 "a@b.c" 0 (by decide)⟩

/-- C10: when the refresh token decodes successfully but its subject is
absent from the user store, the refresh route does not fail 401 — it crashes
with the uncaught `AttributeError` from reading `refresh_token` on `None`,
because `routes/auth.py:refresh_token` has no `None` check after the
lookup. -/
theorem C10_refresh_missing_user_crash (secret : Nat) (t : Token) (now : Nat)
    (db : DB) (email : String)
    (hdec : decode_refresh_token secret t now = .ok email)
    (habsent : get_user_by_email email db = none) :
    refresh_route secret t now db
      = .crash "AttributeError: NoneType has no attribute refresh_token" := by
  simp only [refresh_route, hdec, habsent]

/-- C10 witness: a fresh refresh token for "ghost@b.c" presented against the
empty store crashes instead of failing 401. -/
theorem C10_refresh_missing_user_crash_witness :
    refresh_route 0 (create_refresh_token 0 "ghost@b.c" 0 none) 5 []
      = .crash "AttributeError: NoneType has no attribute refresh_token" :=
  C10_refresh_missing_user_crash 0 (create_refresh_token 0 "ghost@b.c" 0 none)
    5 [] "ghost@b.c" (by decide) (by decide)

/-- C6: for a refresh token that decodes successfully and whose subject
resolves to a stored account whose persisted refresh token is not exactly
the presented one, the refresh route persists `None` into the account's
`refresh_token` field (defensive invalidation) and fails
401 "Invalid refresh token". -/
theorem C6_stale_refresh_clears (secret : Nat) (t : Token) (now : Nat)
    (db : DB) (email : String) (user : User)
    (hdec : decode_refresh_token secret t now = .ok email)
    (hfound : get_user_by_email email db = some user)
    (hmis : user.refresh_token ≠ some t) :
    refresh_route secret t now db
      = .httpError ⟨401, "Invalid refresh token"⟩ (set_refresh_token db email none)
    ∧ get_user_by_email email (set_refresh_token db email none)
      = some { user with refresh_token := none } := by
  have hemail : user.email = email := get_user_by_email_eq hfound
  constructor
  · simp only [refresh_route, hdec, hfound, if_pos hmis, hemail]
  · rw [get_user_set_refresh_token, hfound]
    rfl

/-- C6 witness: a valid refresh token for "a@b.c" presented while the store
holds a different refresh token for that account clears the stored token and
fails 401. -/
theorem C6_stale_refresh_clears_witness :
    refresh_route 7 (create_refresh_token 7 "a@b.c" 100 none) 100
        [⟨"alice", "a@b.c", "hashed", true,
          some (create_refresh_token 7 "a@b.c" 50 none)⟩]
      = .httpError ⟨401, "Invalid refresh token"⟩
          [⟨"alice", "a@b.c", "hashed", true, none⟩] :=
  (C6_stale_refresh_clears 7 (create_refresh_token 7 "a@b.c" 100 none) 100
    [⟨"alice", "a@b.c", "hashed", true,
      some (create_refresh_token 7 "a@b.c" 50 none)⟩]
    "a@b.c" ⟨"alice", "a@b.c", "hashed", true,
      some (create_refresh_token 7 "a@b.c" 50 none)⟩
    (by decide) (by decide) (by decide)).1

/-- C7: logging into an unconfirmed account fails
401 "Email not confirmed" for every password, leaving the store unchanged;
conversely the 401 "Invalid password" outcome can only arise when the
account exists and is confirmed, because the confirmed check precedes the
password check. -/
theorem C7_login_unconfirmed (pverify : String → String → Bool) (secret : Nat)
    (username : String) (now : Nat) (db : DB) :
    (∀ password u, get_user_by_email username db = some u → u.confirmed = false →
        login pverify secret username password now db
          = .httpError ⟨401, "Email not confirmed"⟩ db)
    ∧ (∀ password r,
        login pverify secret username password now db
          = .httpError ⟨401, "Invalid password"⟩ r →
        ∃ u, get_user_by_email username db = some u ∧ u.confirmed = true) := by
  constructor
  · intro password u hfound hunconf
    simp only [login, hfound, hunconf, Bool.not_false, if_pos]
  · intro password r h
    cases hfound : get_user_by_email username db with
    | none =>
      simp only [login, hfound, RouteResult.httpError.injEq] at h
      exact absurd h.1 (by decide)
    | some u =>
      by_cases hc : u.confirmed = true
      · exact ⟨u, rfl, hc⟩
      · have hcf : u.confirmed = false := by
          cases hcc : u.confirmed
          · rfl
          · exact absurd hcc hc
        simp only [login, hfound, hcf, Bool.not_false, if_pos,
          RouteResult.httpError.injEq] at h
        exact absurd h.1 (by decide)

/-- C7 witness: login with the correct password on an unconfirmed account
still fails 401 "Email not confirmed". -/
theorem C7_login_unconfirmed_witness :
    login (fun p h => p == h) 0 "a@b.c" "hashed" 0
        [⟨"alice", "a@b.c", "hashed", false, none⟩]
      = .httpError ⟨401, "Email not confirmed"⟩
          [⟨"alice", "a@b.c", "hashed", false, none⟩] :=
  (C7_login_unconfirmed (fun p h => p == h) 0 "a@b.c" 0
    [⟨"alice", "a@b.c", "hashed", false, none⟩]).1 "hashed"
    ⟨"alice", "a@b.c", "hashed", false, none⟩ (by decide) (by decide)

/-- C8: with a token whose email extraction succeeds and resolves to a
stored account, confirming an already-confirmed account returns the distinct
"Your email is already confirmed" message with the store unchanged; and for
an unconfirmed account the first confirmation sets the flag while every
further confirmation returns the already-confirmed message and leaves the
post-state of the first confirmation unchanged (idempotence). -/
theorem C8_confirm_idempotent (secret : Nat) (t : Token) (now : Nat)
    (db : DB) (email : String) (user : User)
    (hok : get_email_from_token secret t now = .ok email)
    (hfound : get_user_by_email email db = some user) :
    (user.confirmed = true →
        confirm_email_route secret t now db
          = .ok "Your email is already confirmed" db)
    ∧ (user.confirmed = false →
        confirm_email_route secret t now db
          = .ok "Email confirmed" (set_confirmed db email)
        ∧ confirm_email_route secret t now (set_confirmed db email)
          = .ok "Your email is already confirmed" (set_confirmed db email)) := by
  constructor
  · intro hc
    simp only [confirm_email_route, hok, hfound, hc, if_pos]
  · intro hc
    constructor
    · simp only [confirm_email_route, hok, hfound, hc, Bool.false_eq_true,
        if_false]
    · have hlook : get_user_by_email email (set_confirmed db email)
          = some { user with confirmed := true } := by
        rw [get_user_set_confirmed, hfound]
        rfl
      simp only [confirm_email_route, hok, hlook, if_pos]

/-- C8 witness: confirming an unconfirmed account once sets the flag, and a
second confirmation returns the already-confirmed message without changing
the store. -/
theorem C8_confirm_idempotent_witness :
    confirm_email_route 0 (create_email_token 0 "a@b.c" 0) 5
        [⟨"alice", "a@b.c", "hashed", false, none⟩]
      = .ok "Email confirmed" [⟨"alice", "a@b.c", "hashed", true, none⟩]
    ∧ confirm_email_route 0 (create_email_token 0 "a@b.c" 0) 5
        [⟨"alice", "a@b.c", "hashed", true, none⟩]
      = .ok "Your email is already confirmed"
          [⟨"alice", "a@b.c", "hashed", true, none⟩] :=
  ⟨((C8_confirm_idempotent 0 (create_email_token 0 "a@b.c" 0) 5
      [⟨"alice", "a@b.c", "hashed", false, none⟩] "a@b.c"
      ⟨"alice", "a@b.c", "hashed", false, none⟩ (by decide) (by decide)).2
      (by decide)).1,
   (C8_confirm_idempotent 0 (create_email_token 0 "a@b.c" 0) 5
      [⟨"alice", "a@b.c", "hashed", true, none⟩] "a@b.c"
      ⟨"alice", "a@b.c", "hashed", true, none⟩ (by decide) (by decide)).1
      (by decide)⟩

/-- The refresh token issued for "a@b.c" at second 100 under secret 7. -/
def rotR1 : Token := create_refresh_token 7 "a@b.c" 100 none

/-- A store holding the account for "a@b.c" with `rotR1` persisted as its
current refresh token. -/
def rotDB : DB := [⟨"alice", "a@b.c", "hashed", true, some rotR1⟩]

/-- The pair returned by refreshing with `rotR1` at second 100. -/
def rotPair : TokenPair := ⟨create_access_token 7 "a@b.c" 100 none, rotR1⟩

/-- C1 counterexample: when the rotation happens in the same second as the
presented token's issuance, the deterministic JWT encoding reproduces the
identical token — `Refresh(rotR1)` succeeds, "rotates" to a new refresh
token equal to `rotR1`, persists it (post-state unchanged), and a subsequent
`Refresh(rotR1)` on that post-state succeeds again instead of failing 401,
so the old token is not dead after the rotation. -/
theorem C1_rotation_counterexample :
    refresh_route 7 rotR1 100 rotDB = .ok rotPair rotDB
    ∧ rotPair.refresh_token = rotR1
    ∧ refresh_route 7 rotR1 100 rotDB ≠ .httpError ⟨401, "Invalid refresh token"⟩
        (set_refresh_token rotDB "a@b.c" none) := by
  refine ⟨?_, ?_, ?_⟩ <;> decide

/-- C1 amended: after `Refresh(r1)` succeeds producing the pair `pair` and
post-state `db2`, a subsequent `Refresh(r1)` on `db2` fails
401 "Invalid refresh token" provided the newly issued refresh token differs
from `r1` — which holds whenever the rotation happens at a different second
than the issuance of `r1`, but fails when the deterministic encoding
reproduces `r1` itself in the same second. -/
theorem C1_rotation_amended (secret : Nat) (r1 : Token) (now : Nat) (db : DB)
    (pair : TokenPair) (db2 : DB)
    (h : refresh_route secret r1 now db = .ok pair db2)
    (hne : pair.refresh_token ≠ r1) :
    ∃ db3, refresh_route secret r1 now db2
      = .httpError ⟨401, "Invalid refresh token"⟩ db3 := by
  cases hd : decode_refresh_token secret r1 now with
  | httpError e => simp [refresh_route, hd] at h
  | crash m => simp [refresh_route, hd] at h
  | ok email =>
    cases hu : get_user_by_email email db with
    | none => simp [refresh_route, hd, hu] at h
    | some user =>
      by_cases hm : user.refresh_token ≠ some r1
      · simp [refresh_route, hd, hu, if_pos hm] at h
      · simp only [refresh_route, hd, hu, if_neg hm,
          RouteResult.ok.injEq] at h
        obtain ⟨hpair, hdb2⟩ := h
        have hemail : user.email = email := get_user_by_email_eq hu
        have href : pair.refresh_token
            = create_refresh_token secret email now none := by
          rw [← hpair]
        have hrefne : create_refresh_token secret email now none ≠ r1 := by
          rw [← href]
          exact hne
        have hlook2 : get_user_by_email email db2 = some { user with refresh_token := some (create_refresh_token secret email now none) } := by
          rw [← hdb2, hemail, get_user_set_refresh_token, hu]
          simp [hemail]
        refine ⟨set_refresh_token db2 user.email none, ?_⟩
        have hcond : ({ user with refresh_token := some (create_refresh_token secret email now none) } : User).refresh_token ≠ some r1 := by
          intro hcontra
          exact hrefne (Option.some.inj hcontra)
        simp only [refresh_route, hd, hlook2, if_pos hcond]

/-- C1 witness: `rotR1` was issued at second 100; refreshing with it at
second 200 produces a different refresh token, and the subsequent
`Refresh(rotR1)` on the rotated store fails 401. -/
theorem C1_rotation_amended_witness :
    ∃ db3, refresh_route 7 rotR1 200
        [⟨"alice", "a@b.c", "hashed", true,
          some (create_refresh_token 7 "a@b.c" 200 none)⟩]
      = .httpError ⟨401, "Invalid refresh token"⟩ db3 :=
  C1_rotation_amended 7 rotR1 200 rotDB
    ⟨create_access_token 7 "a@b.c" 200 none,
     create_refresh_token 7 "a@b.c" 200 none⟩
    [⟨"alice", "a@b.c", "hashed", true,
      some (create_refresh_token 7 "a@b.c" 200 none)⟩]
    (by decide) (by decide)
